import Mathlib

/-!
Verification of the grade-report program (`src/yo.py`).

The program has two pure helpers, `calculate_average` and
`assign_letter_grade`, and one orchestration routine `main` that holds a
fixed roster, emits one output line per student, and finally calls an
undefined procedure `print_student_summary`.

Embedding choices:
* numeric values are rationals (`ℚ`), the exact idealization of the
  source's numeric arithmetic;
* runtime faults are explicit values of type `PyError`: dividing by a
  zero count becomes `PyError.zeroDivisionError`, and calling a name the
  program never defines becomes `PyError.nameError`;
* printed output is modelled structurally as a list of `OutputLine`
  records, rendered to text by `renderLine`, which is parametric in the
  routine used to display the numeric average (the source's `str`).
-/

/-- A runtime fault of the program: the division-by-zero fault raised by
`calculate_average` on an empty sequence, or the undefined-name fault
raised when a name that is defined nowhere in the program is called. -/
inductive PyError where
  | zeroDivisionError : PyError
  | nameError : String → PyError
  deriving DecidableEq, Repr

/-- The function `calculate_average(grades)` from `src/yo.py`: accumulate
`total` over the sequence starting from `0`, then divide by the length.
When the sequence is empty the division raises a division-by-zero fault,
modelled as an explicit error value. -/
def calculate_average (grades : List ℚ) : Except PyError ℚ :=
  let total : ℚ := grades.foldl (fun t g => t + g) 0
  if grades.length = 0 then
    Except.error PyError.zeroDivisionError
  else
    Except.ok (total / (grades.length : ℚ))

/-- The function `assign_letter_grade(score)` from `src/yo.py`: the
ordered chain of strict greater-than comparisons. -/
def assign_letter_grade (score : ℚ) : String :=
  if score > 90 then "A"
  else if score > 80 then "B"
  else if score > 70 then "C"
  else if score > 60 then "D"
  else "F"

/-- The classifier exactly as the specification's threshold table words
it: the first matching rule among `average > 90 → A`,
`80 < average ≤ 90 → B`, `70 < average ≤ 80 → C`, `60 < average ≤ 70 → D`,
`average ≤ 60 → F`.  Used only to compare against `assign_letter_grade`. -/
def letterGradeSpec (average : ℚ) : String :=
  if average > 90 then "A"
  else if 80 < average ∧ average ≤ 90 then "B"
  else if 70 < average ∧ average ≤ 80 then "C"
  else if 60 < average ∧ average ≤ 70 then "D"
  else "F"

/-- One line of program output, kept structurally: the student's name,
the numeric average, and the letter grade. -/
structure OutputLine where
  name : String
  avg : ℚ
  grade : String
  deriving DecidableEq, Repr

/-- Rendering of one output line as `print` produces it:
`<name> average: <value> grade: <letter>` followed by a newline.
`numStr` is the routine used to display the numeric average (the
source's `str`). -/
def renderLine (numStr : ℚ → String) (l : OutputLine) : String :=
  l.name ++ " average: " ++ numStr l.avg ++ " grade: " ++ l.grade ++ "\n"

/-- The output line the program emits for a student whose scores are
`grades`, written in terms of the arithmetic mean. -/
def studentLine (name : String) (grades : List ℚ) : OutputLine :=
  ⟨name, grades.sum / (grades.length : ℚ),
    assign_letter_grade (grades.sum / (grades.length : ℚ))⟩

/-- The hard-coded roster of `main` in `src/yo.py`, in insertion
order. -/
def students : List (String × List ℚ) :=
  [("Alice", [95, 85, 100]), ("Bob", [70, 65, 60]), ("Charlie", [])]

/-- The per-student loop of `main`: for each student in roster order,
compute the average, classify it, and emit one line; the first fault
halts the loop, keeping the lines already emitted. -/
def processStudents : List (String × List ℚ) → List OutputLine × Option PyError
  | [] => ([], none)
  | (student, grades) :: rest =>
    match calculate_average grades with
    | Except.error e => ([], some e)
    | Except.ok avg =>
      let letter := assign_letter_grade avg
      let (lines, err) := processStudents rest
      (⟨student, avg, letter⟩ :: lines, err)

/-- The call `print_student_summary(students)` at the end of `main`: the
name `print_student_summary` is defined nowhere in `src/yo.py`, so the
call raises an undefined-name fault. -/
def print_student_summary (_students : List (String × List ℚ)) : Except PyError Unit :=
  Except.error (PyError.nameError "print_student_summary")

/-- The routine `main` with the roster made a parameter: run the
per-student loop, and if it completes, call the undefined summary
procedure.  Returns the lines emitted and the fault, if any, that ended
the run. -/
def mainWith (roster : List (String × List ℚ)) : List OutputLine × Option PyError :=
  match processStudents roster with
  | (lines, some e) => (lines, some e)
  | (lines, none) =>
    match print_student_summary roster with
    | Except.error e => (lines, some e)
    | Except.ok _ => (lines, none)

/-- The program's actual run: `main` on the hard-coded roster. -/
def main_run : List OutputLine × Option PyError :=
  mainWith students

/-- Helper: the accumulation loop of `calculate_average` computes the
sum. -/
theorem foldl_add_eq_sum (l : List ℚ) (a : ℚ) :
    l.foldl (fun t g => t + g) a = a + l.sum := by
  induction l generalizing a with
  | nil => simp
  | cons x xs ih =>
    simp only [List.foldl_cons, List.sum_cons, ih]
    ring

/-- Helper: closed form of `calculate_average` on a non-empty
sequence. -/
theorem calculate_average_eq (grades : List ℚ) (h : grades ≠ []) :
    calculate_average grades = Except.ok (grades.sum / (grades.length : ℚ)) := by
  have hlen : grades.length ≠ 0 := fun hl => h (List.eq_nil_of_length_eq_zero hl)
  simp [calculate_average, hlen, foldl_add_eq_sum]

/-- Helper: an empty sequence faults. -/
theorem calculate_average_nil :
    calculate_average ([] : List ℚ) = Except.error PyError.zeroDivisionError :=
  rfl

/-- Helper: Alice's average. -/
theorem avg_alice : calculate_average [(95 : ℚ), 85, 100] = Except.ok ((280 : ℚ) / 3) := by
  rw [calculate_average_eq _ (by decide)]
  norm_num

/-- Helper: Bob's average. -/
theorem avg_bob : calculate_average [(70 : ℚ), 65, 60] = Except.ok (65 : ℚ) := by
  rw [calculate_average_eq _ (by decide)]
  norm_num

/-- Helper: Alice's letter grade. -/
theorem grade_alice : assign_letter_grade ((280 : ℚ) / 3) = "A" := by
  have h : (90 : ℚ) < 280 / 3 := by norm_num
  simp [assign_letter_grade, h]

/-- Helper: Bob's letter grade. -/
theorem grade_bob : assign_letter_grade (65 : ℚ) = "D" := by
  have h90 : ¬((90 : ℚ) < 65) := by norm_num
  have h80 : ¬((80 : ℚ) < 65) := by norm_num
  have h70 : ¬((70 : ℚ) < 65) := by norm_num
  have h60 : (60 : ℚ) < 65 := by norm_num
  simp [assign_letter_grade, h90, h80, h70, h60]

/-- Helper: Alice's output line in closed form. -/
theorem studentLine_alice :
    studentLine "Alice" [95, 85, 100] = ⟨"Alice", (280 : ℚ) / 3, "A"⟩ := by
  unfold studentLine
  have h : (([95, 85, 100] : List ℚ).sum / ((([95, 85, 100] : List ℚ).length : ℕ) : ℚ))
      = 280 / 3 := by
    norm_num
  rw [h, grade_alice]

/-- Helper: Bob's output line in closed form. -/
theorem studentLine_bob :
    studentLine "Bob" [70, 65, 60] = ⟨"Bob", (65 : ℚ), "D"⟩ := by
  unfold studentLine
  have h : (([70, 65, 60] : List ℚ).sum / ((([70, 65, 60] : List ℚ).length : ℕ) : ℚ))
      = 65 := by
    norm_num
  rw [h, grade_bob]

/-- Helper: on a roster whose students all have scores, the loop emits
one line per student, in roster order, and no fault occurs. -/
theorem processStudents_ok (roster : List (String × List ℚ))
    (h : ∀ p ∈ roster, p.2 ≠ []) :
    processStudents roster = (roster.map (fun p => studentLine p.1 p.2), none) := by
  induction roster with
  | nil => rfl
  | cons p ps ih =>
    obtain ⟨n, g⟩ := p
    have hg : g ≠ [] := h (n, g) (List.mem_cons_self _ _)
    have hps : ∀ q ∈ ps, q.2 ≠ [] := fun q hq => h q (List.mem_cons_of_mem _ hq)
    simp only [processStudents, calculate_average_eq g hg, ih hps, List.map_cons]
    rfl

/-- C1: on every non-empty sequence of scores, `calculate_average`
returns the arithmetic mean: the sum of the scores divided by their
count. -/
theorem calculate_average_mean (grades : List ℚ) (h : grades ≠ []) :
    calculate_average grades = Except.ok (grades.sum / (grades.length : ℚ)) :=
  calculate_average_eq grades h

/-- Witness for C1: the mean of Alice's scores is `280/3`. -/
theorem calculate_average_mean_witness :
    calculate_average [(95 : ℚ), 85, 100] = Except.ok ((280 : ℚ) / 3) := by
  rw [calculate_average_mean [(95 : ℚ), 85, 100] (by decide)]
  norm_num

/-- C2: for every input, `assign_letter_grade` agrees with the first
matching rule of the specification's ordered threshold table
(`letterGradeSpec`), whose outputs are exactly the five symbols `A`,
`B`, `C`, `D`, `F`. -/
theorem assign_letter_grade_matches_table (score : ℚ) :
    assign_letter_grade score = letterGradeSpec score := by
  unfold assign_letter_grade letterGradeSpec
  by_cases h90 : score > 90
  · simp [h90]
  · by_cases h80 : score > 80
    · simp [h90, h80, le_of_not_lt h90]
    · by_cases h70 : score > 70
      · simp [h90, h80, h70, le_of_not_lt h80]
      · by_cases h60 : score > 60
        · simp [h90, h80, h70, h60, le_of_not_lt h70]
        · simp [h90, h80, h70, h60]

/-- C3: `calculate_average` raises the division-by-zero fault exactly
when the score sequence is empty. -/
theorem calculate_average_error_iff (grades : List ℚ) :
    calculate_average grades = Except.error PyError.zeroDivisionError ↔ grades = [] := by
  constructor
  · intro h
    by_contra hne
    have hlen : grades.length ≠ 0 := fun hl => hne (List.eq_nil_of_length_eq_zero hl)
    simp [calculate_average, hlen] at h
  · intro h
    subst h
    rfl

/-- C4: the exact boundary values 90, 80, 70, 60 fall to the lower of
the two adjacent grades, and 0 is graded `F`. -/
theorem assign_letter_grade_boundaries :
    assign_letter_grade 90 = "B" ∧ assign_letter_grade 80 = "C" ∧
    assign_letter_grade 70 = "D" ∧ assign_letter_grade 60 = "F" ∧
    assign_letter_grade 0 = "F" := by
  decide

/-- C5: when the average computation fails for a student, the loop
halts there: the run keeps exactly the lines of the students before the
failing one, in roster order, and emits no line for the failing student
or any later one. -/
theorem failure_halts_processing (pre post : List (String × List ℚ)) (name : String)
    (hpre : ∀ p ∈ pre, p.2 ≠ []) :
    processStudents (pre ++ (name, []) :: post) =
      (pre.map (fun p => studentLine p.1 p.2), some PyError.zeroDivisionError) := by
  induction pre with
  | nil => rfl
  | cons p ps ih =>
    obtain ⟨n, g⟩ := p
    have hg : g ≠ [] := hpre (n, g) (List.mem_cons_self _ _)
    have hps : ∀ q ∈ ps, q.2 ≠ [] := fun q hq => hpre q (List.mem_cons_of_mem _ hq)
    simp only [List.cons_append, List.append_eq, processStudents,
      calculate_average_eq g hg, ih hps, List.map_cons]
    rfl

/-- Witness for C5: with Charlie's empty list between Alice and Bob,
only Alice's line is emitted before the division-by-zero fault. -/
theorem failure_halts_processing_witness :
    processStudents
        [("Alice", [95, 85, 100]), ("Charlie", []), ("Bob", [70, 65, 60])] =
      ([⟨"Alice", (280 : ℚ) / 3, "A"⟩], some PyError.zeroDivisionError) := by
  have h := failure_halts_processing [("Alice", [(95 : ℚ), 85, 100])]
    [("Bob", [70, 65, 60])] "Charlie" (by decide)
  exact h.trans (by simp [studentLine_alice])

/-- C6: on the roster mapping Alice to [95, 85, 100] and Bob to
[70, 65, 60], the per-student pass emits, in order, Alice's line with
average 280/3 (= 93.33...) and grade A, then Bob's line with average 65
and grade D, with no fault. -/
theorem end_to_end_alice_bob :
    processStudents [("Alice", [95, 85, 100]), ("Bob", [70, 65, 60])] =
      ([⟨"Alice", (280 : ℚ) / 3, "A"⟩, ⟨"Bob", (65 : ℚ), "D"⟩], none) := by
  simp [processStudents, avg_alice, avg_bob, grade_alice, grade_bob]

/-- C7: on a roster whose students all have scores, the loop emits
exactly one line per student, in roster insertion order, and rendering
each line yields exactly
`<name> average: <value> grade: <letter>` followed by a newline,
whatever routine `numStr` is used to display the numeric value. -/
theorem output_format_per_student (roster : List (String × List ℚ))
    (numStr : ℚ → String) (h : ∀ p ∈ roster, p.2 ≠ []) :
    processStudents roster = (roster.map (fun p => studentLine p.1 p.2), none) ∧
    (processStudents roster).1.map (renderLine numStr) =
      roster.map (fun p =>
        p.1 ++ " average: " ++ numStr (p.2.sum / (p.2.length : ℚ)) ++ " grade: "
          ++ assign_letter_grade (p.2.sum / (p.2.length : ℚ)) ++ "\n") := by
  refine ⟨processStudents_ok roster h, ?_⟩
  rw [processStudents_ok roster h]
  simp [renderLine, studentLine, List.map_map, Function.comp]

/-- Witness for C7: the rendered output of a one-student roster. -/
theorem output_format_per_student_witness :
    (processStudents [("Bob", [(70 : ℚ), 65, 60])]).1.map
        (renderLine (fun _ => "65.0")) =
      ["Bob average: 65.0 grade: D\n"] := by
  have h := (output_format_per_student [("Bob", [(70 : ℚ), 65, 60])]
    (fun _ => "65.0") (by decide)).2
  rw [h]
  norm_num [grade_bob]
  rfl

/-- C8: the program's run prints exactly Alice's line and Bob's line,
in that order, and then aborts with the division-by-zero fault while
processing Charlie's empty score list, never reaching the final summary
call: it never terminates normally. -/
theorem main_never_completes :
    main_run =
      ([⟨"Alice", (280 : ℚ) / 3, "A"⟩, ⟨"Bob", (65 : ℚ), "D"⟩],
        some PyError.zeroDivisionError) := by
  have hp : processStudents students =
      ([⟨"Alice", (280 : ℚ) / 3, "A"⟩, ⟨"Bob", (65 : ℚ), "D"⟩],
        some PyError.zeroDivisionError) := by
    simp [students, processStudents, avg_alice, avg_bob, calculate_average_nil,
      grade_alice, grade_bob]
  simp [main_run, mainWith, hp]

/-- C9: `assign_letter_grade` is total: on every input, including
negative values and values above 100, it returns one of the five letter
symbols. -/
theorem assign_letter_grade_total (score : ℚ) :
    assign_letter_grade score ∈ (["A", "B", "C", "D", "F"] : List String) := by
  unfold assign_letter_grade
  split_ifs <;> simp

/-- C10: `print_student_summary` is defined nowhere in the program, so
its invocation faults with an undefined-name error; on any roster whose
per-student loop completes without fault, `main` therefore ends in that
undefined-name fault. -/
theorem summary_call_undefined (roster : List (String × List ℚ))
    (h : (processStudents roster).2 = none) :
    print_student_summary roster =
        Except.error (PyError.nameError "print_student_summary") ∧
      (mainWith roster).2 = some (PyError.nameError "print_student_summary") := by
  refine ⟨rfl, ?_⟩
  rcases hp : processStudents roster with ⟨lines, err⟩
  rw [hp] at h
  cases err with
  | some e => simp at h
  | none => simp [mainWith, hp, print_student_summary]

/-- Witness for C10: on Bob alone the loop completes, and `main` ends
in the undefined-name fault. -/
theorem summary_call_undefined_witness :
    (mainWith [("Bob", [(70 : ℚ), 65, 60])]).2 =
      some (PyError.nameError "print_student_summary") :=
  (summary_call_undefined [("Bob", [(70 : ℚ), 65, 60])] rfl).2
